import Mathlib

/-!
Verification of the remote GPU job orchestration subsystem of the
character-generation API.

The development shallowly embeds the Python source:
* `src/services/comfyui/image_generator.py` and `video_generator.py`
  (workflow builders, status updates, orchestration tasks),
* `src/services/comfyui/client.py` (the duplex wait loop),
* `src/services/runpod/pod_manager.py` (pod registry, refresh, selection).

Python dictionaries are modelled as association lists (first match wins,
assignment replaces in place or appends), Python `str`/`int` values as
`String`/`Int`, floats as `ℚ` (they are only copied, never computed with),
Python truthiness of optional strings as `pyTruthyOptStr`, exceptions as
`Except String` with the exception's `str(e)` as the carried message, and
network effects as explicit oracle parameters (functions supplied to the
embedded code, standing for whatever the remote side would answer).
Wall-clock instants are natural numbers counting seconds.
-/

set_option autoImplicit false

namespace CharGen

/-- Python truthiness of an `Optional[str]`: `None` and `""` are falsy. -/
def pyTruthyOptStr : Option String → Bool
  | none => false
  | some s => s != ""

/-- Dictionary lookup on an association list (first matching key). -/
def alGet {α : Type} : List (String × α) → String → Option α
  | [], _ => none
  | (k', v) :: t, k => if k' = k then some v else alGet t k

/-- Dictionary assignment `d[k] = v`: replace the first binding of `k`,
or append a new binding when `k` is absent. -/
def alSet {α : Type} : List (String × α) → String → α → List (String × α)
  | [], k, v => [(k, v)]
  | (k', v') :: t, k, v => if k' = k then (k, v) :: t else (k', v') :: alSet t k v

/-- Dictionary membership `k in d`. -/
def alHas {α : Type} (l : List (String × α)) (k : String) : Bool :=
  (alGet l k).isSome

theorem alGet_alSet_self {α : Type} (l : List (String × α)) (k : String) (v : α) :
    alGet (alSet l k v) k = some v := by
  induction l with
  | nil => simp [alGet, alSet]
  | cons h t ih =>
    obtain ⟨k', v'⟩ := h
    by_cases hk : k' = k
    · subst hk; simp [alGet, alSet]
    · simp [alGet, alSet, hk, ih]

theorem alGet_alSet_ne {α : Type} (l : List (String × α)) (k k' : String) (v : α)
    (h : k' ≠ k) : alGet (alSet l k v) k' = alGet l k' := by
  induction l with
  | nil => simp [alGet, alSet, Ne.symm h]
  | cons hd t ih =>
    obtain ⟨k1, v1⟩ := hd
    by_cases hk : k1 = k
    · subst hk
      simp [alGet, alSet, Ne.symm h]
    · simp only [alSet, if_neg hk]
      by_cases hk' : k1 = k'
      · subst hk'; simp [alGet]
      · simp [alGet, hk', ih]

/-! ## Generation records and status updates

From `src/schemas/generation.py` (`GenerationStatus`), the persisted
`ImageGeneration` / `VideoGeneration` rows, and the `update_generation_status`
coroutines of `image_generator.py` and `video_generator.py`.  The database is
modelled as an association list from generation id to record; the SQLAlchemy
`scalar_one_or_none` lookup is `alGet`, and the commit of the mutated row is
`alSet`. -/

inductive GenerationStatus where
  | pending
  | processing
  | completed
  | failed
deriving DecidableEq

structure ImageRecord where
  status : GenerationStatus
  image_url : Option String := none
  error : Option String := none
deriving DecidableEq

structure VideoRecord where
  status : GenerationStatus
  video_url : Option String := none
  thumbnail_url : Option String := none
  error : Option String := none
deriving DecidableEq

/-- The image-generation table, keyed by generation id. -/
abbrev ImageStore := List (String × ImageRecord)

/-- The video-generation table, keyed by generation id. -/
abbrev VideoStore := List (String × VideoRecord)

namespace ImageGen

/-- `update_generation_status` of `image_generator.py` (lines 72-91): look the
record up; if absent do nothing; otherwise set `status` unconditionally and
set `image_url` / `error` only when the supplied argument is truthy. -/
def update_generation_status (store : ImageStore) (generation_id : String)
    (status : GenerationStatus) (image_url : Option String)
    (error : Option String) : ImageStore :=
  match alGet store generation_id with
  | none => store
  | some g =>
    let g := { g with status := status }
    let g := if pyTruthyOptStr image_url then { g with image_url := image_url } else g
    let g := if pyTruthyOptStr error then { g with error := error } else g
    alSet store generation_id g

end ImageGen

namespace VideoGen

/-- `update_generation_status` of `video_generator.py` (lines 58-80): same
shape as the image variant, with the extra `thumbnail_url` field. -/
def update_generation_status (store : VideoStore) (generation_id : String)
    (status : GenerationStatus) (video_url : Option String)
    (thumbnail_url : Option String) (error : Option String) : VideoStore :=
  match alGet store generation_id with
  | none => store
  | some g =>
    let g := { g with status := status }
    let g := if pyTruthyOptStr video_url then { g with video_url := video_url } else g
    let g := if pyTruthyOptStr thumbnail_url then { g with thumbnail_url := thumbnail_url } else g
    let g := if pyTruthyOptStr error then { g with error := error } else g
    alSet store generation_id g

end VideoGen

/-! ## Workflow templates and the builders

From `build_image_workflow` (`image_generator.py` lines 25-69) and
`build_video_workflow` (`video_generator.py` lines 26-55).  A workflow is a
JSON object mapping node ids to node objects; each node object carries an
`inputs` dictionary plus further fields (`class_type`, …) that the builders
never touch, collapsed here into the opaque `rest` string. -/

inductive JVal where
  | null
  | int (n : Int)
  | rat (q : ℚ)
  | str (s : String)
deriving DecidableEq

structure WNode where
  inputs : List (String × JVal)
  rest : String
deriving DecidableEq

abbrev Workflow := List (String × WNode)

/-- `workflow[nid]["inputs"][key] = v` for a node id that is present:
update the first node bound to `nid`, assigning `key` in its `inputs`. -/
def setNodeInput : Workflow → String → String → JVal → Workflow
  | [], _, _, _ => []
  | (k, n) :: t, nid, key, v =>
    if k = nid then (k, { n with inputs := alSet n.inputs key v }) :: t
    else (k, n) :: setNodeInput t nid key v

/-- Read `workflow[nid]["inputs"][key]`. -/
def getInput (w : Workflow) (nid key : String) : Option JVal :=
  match alGet w nid with
  | none => none
  | some n => alGet n.inputs key

/-- The node-level JSON that is not the `inputs` dictionary. -/
def restMap (w : Workflow) (nid : String) : Option String :=
  (alGet w nid).map WNode.rest

/-- `Character` row fields consumed by the builders (`models/character.py`). -/
structure Character where
  id : String
  trigger_word : String
  lora_path : String
deriving DecidableEq

/-- `ImageGenerationRequest` of `schemas/generation.py`, with its defaults.
Float-valued fields are carried as rationals; they are only copied. -/
structure ImageGenerationRequest where
  character_id : String
  prompt : String
  negative_prompt : String := "blurry, low quality, distorted, deformed"
  width : Int := 1024
  height : Int := 1024
  num_inference_steps : Int := 30
  guidance_scale : ℚ := 7.5
  lora_strength : ℚ := 0.8
  seed : Option Int := none
deriving DecidableEq

/-- `VideoGenerationRequest` of `schemas/generation.py`, with its defaults. -/
structure VideoGenerationRequest where
  character_id : String
  prompt : String
  source_image_url : Option String := none
  width : Int := 1024
  height : Int := 576
  num_frames : Int := 25
  fps : Int := 6
  motion_bucket_id : Int := 127
  seed : Option Int := none
deriving DecidableEq

/-- `request.seed if request.seed is not None else random.randint(0, 2**32 - 1)`.
The random draw is modelled as an external entropy word reduced into the
inclusive range `[0, 2^32 - 1]`. -/
def resolved_seed (seed : Option Int) (entropy : Nat) : Int :=
  match seed with
  | some s => s
  | none => Int.ofNat (entropy % 2 ^ 32)

/-- `Path(p).name`: the final path component (for the slash-separated paths
stored in `Character.lora_path`). -/
def path_name (p : String) : String :=
  (p.splitOn "/").getLastD p

/-- One guarded injection block `if "N" in workflow:` followed by the
assignments `workflow["N"]["inputs"][k] = v` in order: a no-op when the node
id is absent. -/
def inject_block (w : Workflow) (nid : String) (kvs : List (String × JVal)) : Workflow :=
  if alHas w nid then kvs.foldl (fun w kv => setNodeInput w nid kv.1 kv.2) w else w

/-- `build_image_workflow` (`image_generator.py` lines 25-69), block by
block in source order.  The template is an explicit argument (the Python
code loads it from a static JSON file), as is the entropy used when no seed
is supplied. -/
def build_image_workflow (tmpl : Workflow) (character : Character)
    (request : ImageGenerationRequest) (entropy : Nat) : Workflow :=
  let seed := resolved_seed request.seed entropy
  let w := tmpl
  let w := inject_block w "3"
    [("seed", .int seed), ("steps", .int request.num_inference_steps),
     ("cfg", .rat request.guidance_scale)]
  let w := inject_block w "5"
    [("width", .int request.width), ("height", .int request.height)]
  let w := inject_block w "6"
    [("text", .str (character.trigger_word ++ ", " ++ request.prompt))]
  let w := inject_block w "7" [("text", .str request.negative_prompt)]
  let w := inject_block w "10"
    [("lora_name", .str (path_name character.lora_path)),
     ("strength_model", .rat request.lora_strength),
     ("strength_clip", .rat request.lora_strength)]
  w

/-- `build_video_workflow` (`video_generator.py` lines 26-55).  The source
image path may be `None` at runtime (the ComfyUI upload response's `name`
field is optional), in which case JSON `null` is written. -/
def build_video_workflow (tmpl : Workflow) (source_image_path : Option String)
    (request : VideoGenerationRequest) (entropy : Nat) : Workflow :=
  let seed := resolved_seed request.seed entropy
  let w := tmpl
  let w := inject_block w "1"
    [("image", match source_image_path with | some s => .str s | none => .null)]
  let w := inject_block w "2"
    [("width", .int request.width), ("height", .int request.height),
     ("video_frames", .int request.num_frames),
     ("motion_bucket_id", .int request.motion_bucket_id),
     ("fps", .int request.fps)]
  let w := inject_block w "3" [("seed", .int seed)]
  w

/-! ## The duplex wait loop of `ComfyUIClient.execute_workflow`

From `client.py` lines 128-154.  One received frame is either a JSON message
(`executing` / `execution_error` / anything else) or a 5-second receive
timeout, which the code treats as "retry the wait".  `process_event` is the
per-frame dispatch of the loop body; `run_wait_loop` folds it over a stream
of frames, `none` meaning the loop is still waiting.  The overall-timeout
guard at the top of each iteration is wall-clock driven and independent of
the received frame; it is not part of the per-frame dispatch. -/

inductive WsEvent where
  | executing (prompt_id : Option String) (node : Option String)
  | execution_error (prompt_id : Option String) (exception_message : Option String)
  | other
  | recv_timeout
deriving DecidableEq

inductive LoopStep where
  | continue_waiting
  | finished
  | failed (msg : String)
deriving DecidableEq

/-- The job id carried by a frame, when the frame carries one. -/
def WsEvent.carried_id : WsEvent → Option (Option String)
  | .executing pid _ => some pid
  | .execution_error pid _ => some pid
  | .other => none
  | .recv_timeout => none

/-- One iteration of the wait loop body for the job `prompt_id`. -/
def process_event (prompt_id : String) (ev : WsEvent) : LoopStep :=
  match ev with
  | .executing pid node =>
    if pid = some prompt_id then
      if node = none then .finished else .continue_waiting
    else .continue_waiting
  | .execution_error pid msg =>
    if pid = some prompt_id then
      .failed ("Workflow execution failed: " ++ msg.getD "Unknown error")
    else .continue_waiting
  | .other => .continue_waiting
  | .recv_timeout => .continue_waiting

/-- The wait loop over a finite stream of frames: `some (.ok ())` is the
successful break, `some (.error m)` the raised `RuntimeError`, `none` means
every frame was consumed and the loop is still waiting. -/
def run_wait_loop (prompt_id : String) : List WsEvent → Option (Except String Unit)
  | [] => none
  | ev :: rest =>
    match process_event prompt_id ev with
    | .continue_waiting => run_wait_loop prompt_id rest
    | .finished => some (.ok ())
    | .failed m => some (.error m)

/-! ## Workflow outputs and the orchestration tasks

From `generate_image_task` (`image_generator.py` lines 94-150) and
`generate_video_task` (`video_generator.py` lines 83-181).  The history
outputs are a dictionary from node id to a node-output object that may carry
an `images` and/or `gifs` list of file descriptors.  Every network step is an
oracle in the environment record; its `Except` result is the step either
returning a value or raising, with `str(e)` as the message. -/

structure OutFile where
  filename : Option String
  subfolder : Option String
deriving DecidableEq

structure NodeOutput where
  images : Option (List OutFile)
  gifs : Option (List OutFile)
deriving DecidableEq

abbrev Outputs := List (String × NodeOutput)

abbrev Bytes := List Nat

/-- The inner `for img in node_output[...]` loop: fetch the artifact of the
first file with a truthy filename, raising whatever `get_image` raises. -/
def fetch_first_file (get_image : String → String → Except String Bytes) :
    List OutFile → Except String (Option Bytes)
  | [] => pure none
  | f :: rest =>
    match f.filename with
    | some name =>
      if name != "" then do
        let d ← get_image name (f.subfolder.getD "")
        pure (some d)
      else fetch_first_file get_image rest
    | none => fetch_first_file get_image rest

/-- The outer `for node_id, node_output in outputs.items()` loop, selecting
the artifact list by key (`images` or `gifs`) and stopping at the first node
yielding truthy data. -/
def find_output_data (get_image : String → String → Except String Bytes)
    (sel : NodeOutput → Option (List OutFile)) :
    Outputs → Except String (Option Bytes)
  | [] => pure none
  | (_, nout) :: rest =>
    match sel nout with
    | some files => do
      let d ← fetch_first_file get_image files
      match d with
      | some b =>
        if b != [] then pure (some b) else find_output_data get_image sel rest
      | none => find_output_data get_image sel rest
    | none => find_output_data get_image sel rest

/-- The filename scan of `generate_video_task` (no artifact download): the
first truthy `filename` in any node's `images` list. -/
def first_truthy_filename : List OutFile → Option String
  | [] => none
  | f :: rest =>
    match f.filename with
    | some name => if name != "" then some name else first_truthy_filename rest
    | none => first_truthy_filename rest

def find_source_filename : Outputs → Option String
  | [] => none
  | (_, nout) :: rest =>
    match nout.images with
    | some files =>
      match first_truthy_filename files with
      | some f => some f
      | none => find_source_filename rest
    | none => find_source_filename rest

namespace ImageGen

/-- The remote effects of one image-generation run.  `execute_workflow`
takes the built workflow and the timeout (seconds), `storage_upload` the
bytes, storage path and content type. -/
structure Env where
  execute_workflow : Workflow → Nat → Except String Outputs
  get_image : String → String → Except String Bytes
  storage_upload : Bytes → String → String → Except String String

/-- The body of `generate_image_task`'s `try` block after the record is
marked Processing (`image_generator.py` lines 110-142): build, execute, scan
the outputs, upload, mark Completed. -/
def task_body (env : Env) (tmpl : Workflow) (character : Character)
    (request : ImageGenerationRequest) (entropy : Nat)
    (store : ImageStore) (generation_id : String) :
    Except String ImageStore := do
  let workflow := build_image_workflow tmpl character request entropy
  let outputs ← env.execute_workflow workflow 300
  let image_data ← find_output_data env.get_image (fun n => n.images) outputs
  match image_data with
  | some d =>
    if d != [] then do
      let storage_path :=
        "characters/" ++ character.id ++ "/images/" ++ generation_id ++ ".png"
      let image_url ← env.storage_upload d storage_path "image/png"
      pure (update_generation_status store generation_id .completed (some image_url) none)
    else Except.error "No output image found in workflow results"
  | none => Except.error "No output image found in workflow results"

/-- `generate_image_task` (`image_generator.py` lines 94-150): mark
Processing, run the body, and on any exception mark Failed with `str(e)` and
re-raise.  The third component is the ghost trace of statuses passed to
`update_generation_status`, in call order. -/
def generate_image_task (env : Env) (tmpl : Workflow) (character : Character)
    (request : ImageGenerationRequest) (entropy : Nat)
    (store : ImageStore) (generation_id : String) :
    ImageStore × Except String Unit × List GenerationStatus :=
  let store1 := update_generation_status store generation_id .processing none none
  match task_body env tmpl character request entropy store1 generation_id with
  | .ok store2 => (store2, .ok (), [GenerationStatus.processing, GenerationStatus.completed])
  | .error e =>
    (update_generation_status store1 generation_id .failed none (some e),
     .error e, [GenerationStatus.processing, GenerationStatus.failed])

end ImageGen

namespace VideoGen

/-- The remote effects of one video-generation run.  `http_get` downloads a
caller-supplied source image, `upload_image` pushes it to ComfyUI and
returns the response's optional `name` field. -/
structure Env where
  execute_workflow : Workflow → Nat → Except String Outputs
  get_image : String → String → Except String Bytes
  http_get : String → Except String Bytes
  upload_image : Bytes → String → Except String (Option String)
  storage_upload : Bytes → String → String → Except String String

/-- The body of `generate_video_task`'s `try` block after the record is
marked Processing (`video_generator.py` lines 100-173): resolve a source
image (generating one via the image path when none is supplied), build the
SVD workflow, execute, scan for `gifs`, upload, mark Completed. -/
def task_body (env : Env) (tmpl_image tmpl_video : Workflow)
    (character : Character) (request : VideoGenerationRequest)
    (entropy_image entropy_video : Nat)
    (store : VideoStore) (generation_id : String) :
    Except String VideoStore := do
  let source_image_path ←
    if pyTruthyOptStr request.source_image_url = false then do
      let image_request : ImageGenerationRequest :=
        { character_id := request.character_id, prompt := request.prompt,
          width := request.width, height := request.height }
      let image_workflow := build_image_workflow tmpl_image character image_request entropy_image
      let image_outputs ← env.execute_workflow image_workflow 300
      match find_source_filename image_outputs with
      | some f => pure (some f)
      | none => Except.error "Failed to generate source image for video"
    else do
      let image_data ← env.http_get (request.source_image_url.getD "")
      let upload_result ← env.upload_image image_data ("source_" ++ generation_id ++ ".png")
      pure upload_result
  let workflow := build_video_workflow tmpl_video source_image_path request entropy_video
  let outputs ← env.execute_workflow workflow 600
  let video_data ← find_output_data env.get_image (fun n => n.gifs) outputs
  match video_data with
  | some d =>
    if d != [] then do
      let storage_path :=
        "characters/" ++ character.id ++ "/videos/" ++ generation_id ++ ".mp4"
      let video_url ← env.storage_upload d storage_path "video/mp4"
      pure (update_generation_status store generation_id .completed (some video_url) none none)
    else Except.error "No output video found in workflow results"
  | none => Except.error "No output video found in workflow results"

/-- `generate_video_task` (`video_generator.py` lines 83-181), with the same
record-then-rethrow wrapper and ghost status trace as the image task. -/
def generate_video_task (env : Env) (tmpl_image tmpl_video : Workflow)
    (character : Character) (request : VideoGenerationRequest)
    (entropy_image entropy_video : Nat)
    (store : VideoStore) (generation_id : String) :
    VideoStore × Except String Unit × List GenerationStatus :=
  let store1 := update_generation_status store generation_id .processing none none none
  match task_body env tmpl_image tmpl_video character request entropy_image entropy_video
      store1 generation_id with
  | .ok store2 => (store2, .ok (), [GenerationStatus.processing, GenerationStatus.completed])
  | .error e =>
    (update_generation_status store1 generation_id .failed none none (some e),
     .error e, [GenerationStatus.processing, GenerationStatus.failed])

end VideoGen

/-! ## The RunPod pod manager

From `src/services/runpod/pod_manager.py`: pod listing (with the GraphQL
response parsed into `Pod` values), health checks, the staleness-gated
refresh, pod selection and URL resolution.  The control-plane answer and the
health-probe outcomes are oracle parameters; alongside the updated state,
`list_pods`/`refresh_pods`/`get_comfyui_url` return the number of
control-plane listing requests actually issued (0 or 1), which the Python
code performs inside `_graphql_request`. -/

inductive PodStatus where
  | RUNNING
  | STARTING
  | STOPPED
  | EXITED
  | ERROR
deriving DecidableEq

structure Pod where
  id : String
  name : String
  status : PodStatus
  gpu_type : String
  comfyui_url : Option String
  last_health_check : Option Nat := none
  is_healthy : Bool := false
deriving DecidableEq

/-- One entry of `myself.pods` in the GraphQL listing response.  Absent JSON
fields are `none`; `isIpPublic` stands for the truthiness of that field. -/
structure RawPort where
  ip : Option String
  isIpPublic : Bool
  privatePort : Option Int
  publicPort : Option Int
deriving DecidableEq

structure RawPod where
  id : String
  name : Option String
  desiredStatus : Option String
  runtimePorts : Option (List RawPort)
  gpuDisplayName : Option String
deriving DecidableEq

/-- `PodStatus(status_str)` wrapped in `try/except ValueError`: the five
recognized strings map to themselves, anything else becomes `ERROR`
(`pod_manager.py` lines 135-139). -/
def parse_pod_status (s : String) : PodStatus :=
  if s = "RUNNING" then .RUNNING
  else if s = "STARTING" then .STARTING
  else if s = "STOPPED" then .STOPPED
  else if s = "EXITED" then .EXITED
  else if s = "ERROR" then .ERROR
  else .ERROR

/-- The port scan of `list_pods` (lines 126-133): the first public port
mapped from private port 8188 with a truthy ip and a truthy public port
yields `http://ip:port`. -/
def find_comfyui_url : List RawPort → Option String
  | [] => none
  | p :: rest =>
    if p.privatePort = some 8188 && p.isIpPublic then
      match p.ip, p.publicPort with
      | some ip, some pp =>
        if ip != "" && pp != 0 then some ("http://" ++ ip ++ ":" ++ toString pp)
        else find_comfyui_url rest
      | _, _ => find_comfyui_url rest
    else find_comfyui_url rest

/-- One listing entry parsed into a `Pod` (lines 122-148). -/
def parse_pod (r : RawPod) : Pod :=
  let comfyui_url :=
    match r.runtimePorts with
    | some ports => if ports != [] then find_comfyui_url ports else none
    | none => none
  { id := r.id,
    name := r.name.getD "",
    status := parse_pod_status (r.desiredStatus.getD "STOPPED"),
    gpu_type := r.gpuDisplayName.getD "Unknown",
    comfyui_url := comfyui_url }

/-- The mutable state of `RunPodManager`: credentials from settings, the pod
map (in listing order) and the last-refresh instant. -/
structure MState where
  api_key : String
  endpoint_id : String
  pods : List Pod
  last_refresh : Option Nat
deriving DecidableEq

/-- `RunPodManager.is_configured` (lines 59-62): both credential strings
truthy. -/
def is_configured (st : MState) : Bool :=
  st.api_key != "" && st.endpoint_id != ""

/-- `RunPodManager.list_pods` (lines 90-150): an unconfigured manager
returns `[]` without issuing any control-plane request; otherwise one
GraphQL listing request is issued and parsed. -/
def list_pods (st : MState) (fetched : List RawPod) : List Pod × Nat :=
  if is_configured st then (fetched.map parse_pod, 1) else ([], 0)

/-- `RunPodManager.check_pod_health` (lines 152-170): a pod without a truthy
URL is left untouched (returning unhealthy); otherwise the probe outcome is
written to `is_healthy` and the check instant recorded. -/
def check_pod_health (probe : Pod → Bool) (now : Nat) (p : Pod) : Pod :=
  match p.comfyui_url with
  | none => p
  | some u =>
    if u != "" then { p with is_healthy := probe p, last_health_check := some now }
    else p

/-- `RunPodManager.refresh_pods` (lines 172-189): skip when not forced and
the last refresh is younger than the 30-second interval, otherwise list,
health-check every listed pod and replace the pod map wholesale. -/
def refresh_pods (st : MState) (now : Nat) (force : Bool)
    (fetched : List RawPod) (probe : Pod → Bool) : MState × Nat :=
  if !force &&
      (match st.last_refresh with
       | some t => decide (now - t < 30)
       | none => false) then
    (st, 0)
  else
    let lp := list_pods st fetched
    let pods := lp.1.map (check_pod_health probe now)
    ({ st with pods := pods, last_refresh := some now }, lp.2)

/-- The eligibility filter of `get_available_pod` (lines 200-203). -/
def eligible_pod (p : Pod) : Bool :=
  decide (p.status = PodStatus.RUNNING) && p.is_healthy && pyTruthyOptStr p.comfyui_url

/-- The selection step of `get_available_pod` (lines 199-209): first
eligible pod of the map, in listing order. -/
def select_available (pods : List Pod) : Option Pod :=
  (pods.filter eligible_pod).head?

/-- `RunPodManager.get_available_pod` (lines 191-209): non-forced refresh,
then select from the refreshed map. -/
def get_available_pod (st : MState) (now : Nat)
    (fetched : List RawPod) (probe : Pod → Bool) :
    (MState × Nat) × Option Pod :=
  let r := refresh_pods st now false fetched probe
  (r, select_available r.1.pods)

/-- `RunPodManager.get_comfyui_url` (lines 211-226): an unconfigured manager
returns the static configured endpoint at once; otherwise the selected pod's
URL when one is available and truthy, falling back to the static endpoint. -/
def get_comfyui_url (st : MState) (static_url : String) (now : Nat)
    (fetched : List RawPod) (probe : Pod → Bool) :
    (MState × Nat) × String :=
  if !is_configured st then ((st, 0), static_url)
  else
    let r := get_available_pod st now fetched probe
    match r.2 with
    | some p =>
      if pyTruthyOptStr p.comfyui_url then (r.1, p.comfyui_url.getD "")
      else (r.1, static_url)
    | none => (r.1, static_url)

/-! ## Concrete fixtures used by witnesses and counterexamples -/

/-- A listing entry carrying the unrecognized status string `"PAUSED"`. -/
def paused_raw_pod : RawPod :=
  { id := "p1", name := none, desiredStatus := some "PAUSED",
    runtimePorts := none, gpuDisplayName := none }

/-- A healthy running pod with a resolved endpoint. -/
def sample_pod : Pod :=
  { id := "a", name := "w", status := .RUNNING, gpu_type := "A100",
    comfyui_url := some "http://1.2.3.4:8188", is_healthy := true }

/-- A configured manager whose last successful refresh was at instant 0. -/
def stale_mstate : MState :=
  { api_key := "k", endpoint_id := "e", pods := [], last_refresh := some 0 }

/-- A configured manager that has never refreshed (empty pool upstream). -/
def fetchable_mstate : MState :=
  { api_key := "k", endpoint_id := "e", pods := [], last_refresh := none }

/-- A manager without pool credentials. -/
def unconfigured_mstate : MState :=
  { api_key := "", endpoint_id := "", pods := [], last_refresh := none }

/-- A character fixture. -/
def cex_character : Character :=
  { id := "c1", trigger_word := "sks woman", lora_path := "/models/loras/c1.safetensors" }

def cex_image_request : ImageGenerationRequest :=
  { character_id := "c1", prompt := "portrait" }

def cex_video_request : VideoGenerationRequest :=
  { character_id := "c1", prompt := "wave" }

/-- A store holding the single pending image record `"g1"`. -/
def cex_image_store : ImageStore := [("g1", { status := GenerationStatus.pending })]

/-- A store holding the single pending video record `"g1"`. -/
def cex_video_store : VideoStore := [("g1", { status := GenerationStatus.pending })]

/-- An environment whose workflow submission raises an exception with an
empty message (`str(e) == ""`, e.g. a bare `ValueError()`). -/
def failing_image_env : ImageGen.Env :=
  { execute_workflow := fun _ _ => Except.error ""
    get_image := fun _ _ => Except.error "unreachable"
    storage_upload := fun _ _ _ => Except.error "unreachable" }

/-- An environment whose workflow submission raises `"connect refused"`. -/
def boom_image_env : ImageGen.Env :=
  { execute_workflow := fun _ _ => Except.error "connect refused"
    get_image := fun _ _ => Except.error "unreachable"
    storage_upload := fun _ _ _ => Except.error "unreachable" }

/-- A video environment whose workflow submission raises `"connect refused"`. -/
def boom_video_env : VideoGen.Env :=
  { execute_workflow := fun _ _ => Except.error "connect refused"
    get_image := fun _ _ => Except.error "unreachable"
    http_get := fun _ => Except.error "unreachable"
    upload_image := fun _ _ => Except.error "unreachable"
    storage_upload := fun _ _ _ => Except.error "unreachable" }

/-- Rank of a status along the forward path Pending → Processing →
{Completed | Failed}. -/
def statusRank : GenerationStatus → Nat
  | .pending => 0
  | .processing => 1
  | .completed => 2
  | .failed => 2

def isTerminal : GenerationStatus → Bool
  | .completed => true
  | .failed => true
  | .pending => false
  | .processing => false

/-- The designated injection keys of `build_image_workflow`, per node id:
sampler (`"3"`), canvas (`"5"`), prompts (`"6"`, `"7"`), adapter (`"10"`). -/
def image_injection_keys : String → List String
  | "3" => ["seed", "steps", "cfg"]
  | "5" => ["width", "height"]
  | "6" => ["text"]
  | "7" => ["text"]
  | "10" => ["lora_name", "strength_model", "strength_clip"]
  | _ => []

/-- An image template providing nodes `"3"`, `"6"` and `"9"` and lacking
injection point `"5"`. -/
def sample_image_tmpl : Workflow :=
  [("3", { inputs := [("seed", JVal.int 0), ("denoise", JVal.int 1)], rest := "KSampler" }),
   ("6", { inputs := [("text", JVal.str "old")], rest := "CLIPTextEncode" }),
   ("9", { inputs := [("fname", JVal.str "ComfyUI")], rest := "SaveImage" })]

/-- A video template providing nodes `"1"`, `"2"` and `"3"`. -/
def sample_video_tmpl : Workflow :=
  [("1", { inputs := [("image", JVal.str "x.png")], rest := "LoadImage" }),
   ("2", { inputs := [("width", JVal.int 0)], rest := "SVDimg2vidConditioning" }),
   ("3", { inputs := [("seed", JVal.int 0)], rest := "KSampler" })]

def seeded_image_request : ImageGenerationRequest :=
  { character_id := "c1", prompt := "portrait", seed := some 42 }

def seeded_video_request : VideoGenerationRequest :=
  { character_id := "c1", prompt := "wave", seed := some 43 }

/-! ## Helper lemmas -/

theorem alGet_eq_none_of_alHas_false {α : Type} (l : List (String × α)) (k : String)
    (h : alHas l k = false) : alGet l k = none := by
  unfold alHas at h
  cases hg : alGet l k with
  | none => rfl
  | some v => rw [hg] at h; simp at h

theorem select_available_eligible (pods : List Pod) (p : Pod)
    (h : select_available pods = some p) : eligible_pod p = true ∧ p ∈ pods := by
  unfold select_available at h
  cases hf : pods.filter eligible_pod with
  | nil => rw [hf] at h; simp at h
  | cons a t =>
    rw [hf] at h
    simp only [List.head?_cons, Option.some.injEq] at h
    cases h
    have hm : p ∈ pods.filter eligible_pod := by rw [hf]; exact List.mem_cons_self p t
    exact ⟨List.of_mem_filter hm, List.mem_of_mem_filter hm⟩

theorem select_available_first (pods : List Pod) (p : Pod)
    (h : select_available pods = some p) :
    ∃ pre post, pods = pre ++ p :: post ∧ ∀ q ∈ pre, eligible_pod q = false := by
  induction pods with
  | nil => simp [select_available, List.filter] at h
  | cons a t ih =>
    by_cases ha : eligible_pod a = true
    · have hsel : select_available (a :: t) = some a := by
        simp [select_available, List.filter_cons, ha]
      rw [hsel] at h
      have hap : a = p := by injection h
      subst hap
      exact ⟨[], t, rfl, by intro q hq; simp at hq⟩
    · have hsel : select_available (a :: t) = select_available t := by
        simp [select_available, List.filter_cons, ha]
      rw [hsel] at h
      obtain ⟨pre, post, heq, hpre⟩ := ih h
      refine ⟨a :: pre, post, by rw [heq, List.cons_append], ?_⟩
      intro q hq
      rcases List.mem_cons.mp hq with rfl | hq'
      · exact Bool.eq_false_iff.mpr ha
      · exact hpre q hq'

/-- **C3** (confirmed): in the `execute_workflow` wait loop, a duplex event
carrying a prompt id different from the awaited job's id — an `executing`
event with any node field (including null) or an `execution_error` event —
is dispatched to "keep waiting": it neither ends the loop successfully nor
raises, and the loop outcome over the remaining stream is unchanged. -/
theorem foreign_event_ignored (pid : String) (rest : List WsEvent) :
    (∀ epid node, epid ≠ some pid →
      process_event pid (WsEvent.executing epid node) = LoopStep.continue_waiting ∧
      run_wait_loop pid (WsEvent.executing epid node :: rest) = run_wait_loop pid rest) ∧
    (∀ epid msg, epid ≠ some pid →
      process_event pid (WsEvent.execution_error epid msg) = LoopStep.continue_waiting ∧
      run_wait_loop pid (WsEvent.execution_error epid msg :: rest) = run_wait_loop pid rest) := by
  constructor
  · intro epid node h
    have hp : process_event pid (WsEvent.executing epid node) = LoopStep.continue_waiting := by
      simp [process_event, h]
    exact ⟨hp, by simp [run_wait_loop, hp]⟩
  · intro epid msg h
    have hp : process_event pid (WsEvent.execution_error epid msg) = LoopStep.continue_waiting := by
      simp [process_event, h]
    exact ⟨hp, by simp [run_wait_loop, hp]⟩

/-- Witness for C3 at the concrete awaited id `"abc"`: a null-node
`executing` event and an `execution_error` event for the foreign job
`"xyz"` are both ignored. -/
theorem foreign_event_ignored_witness :
    (process_event "abc" (WsEvent.executing (some "xyz") none) = LoopStep.continue_waiting ∧
      run_wait_loop "abc" [WsEvent.executing (some "xyz") none] = run_wait_loop "abc" []) ∧
    (process_event "abc" (WsEvent.execution_error (some "xyz") (some "OOM")) = LoopStep.continue_waiting ∧
      run_wait_loop "abc" [WsEvent.execution_error (some "xyz") (some "OOM")] = run_wait_loop "abc" []) :=
  ⟨(foreign_event_ignored "abc" []).1 (some "xyz") none (by decide),
   (foreign_event_ignored "abc" []).2 (some "xyz") (some "OOM") (by decide)⟩

/-- **C9** (confirmed): when the generation id matches no record,
`update_generation_status` (image and video variants) returns the store
unchanged whatever status, URL or error arguments are supplied; being a
total function of the embedding, it raises nothing. -/
theorem update_status_missing_noop (storeI : ImageStore) (storeV : VideoStore)
    (gid : String) (status : GenerationStatus)
    (image_url video_url thumbnail_url error : Option String)
    (hI : alGet storeI gid = none) (hV : alGet storeV gid = none) :
    ImageGen.update_generation_status storeI gid status image_url error = storeI ∧
    VideoGen.update_generation_status storeV gid status video_url thumbnail_url error = storeV := by
  constructor
  · unfold ImageGen.update_generation_status; rw [hI]
  · unfold VideoGen.update_generation_status; rw [hV]

/-- Witness for C9: a store holding only `"g7"` is untouched by an update
addressed to `"g1"`. -/
theorem update_status_missing_noop_witness :
    ImageGen.update_generation_status [("g7", { status := .pending })] "g1"
        .failed (some "http://img") (some "boom") = [("g7", { status := .pending })] ∧
    VideoGen.update_generation_status [] "g1" .failed (some "http://v") none (some "boom") = [] :=
  update_status_missing_noop [("g7", { status := .pending })] [] "g1" .failed
    (some "http://img") (some "http://v") none (some "boom") (by decide) (by decide)

/-- The five `desiredStatus` strings the `PodStatus` enum recognizes. -/
def recognized_statuses : List String :=
  ["RUNNING", "STARTING", "STOPPED", "EXITED", "ERROR"]

theorem parse_pod_status_unrecognized (s : String)
    (h : s ∉ recognized_statuses) : parse_pod_status s = PodStatus.ERROR := by
  simp only [recognized_statuses, List.mem_cons, List.mem_singleton, not_or] at h
  obtain ⟨h1, h2, h3, h4, h5⟩ := h
  simp [parse_pod_status, h1, h2, h3, h4, h5]

/-- **C10** (confirmed): parsing a listing entry never raises — the status
translation is total, sending every unrecognized `desiredStatus` string to
`ERROR` — and a pod whose status is not `RUNNING` (in particular an `ERROR`
pod) is never the pod returned by `get_available_pod`. -/
theorem unknown_status_error_pod :
    (∀ s, s ∉ recognized_statuses → parse_pod_status s = PodStatus.ERROR) ∧
    (∀ r : RawPod, ∀ s, r.desiredStatus = some s → s ∉ recognized_statuses →
      (parse_pod r).status = PodStatus.ERROR) ∧
    (∀ st now fetched probe p,
      (get_available_pod st now fetched probe).2 = some p →
      p.status = PodStatus.RUNNING) := by
  refine ⟨parse_pod_status_unrecognized, ?_, ?_⟩
  · intro r s hds hs
    show parse_pod_status (r.desiredStatus.getD "STOPPED") = PodStatus.ERROR
    rw [hds]
    exact parse_pod_status_unrecognized s hs
  · intro st now fetched probe p h
    unfold get_available_pod at h
    simp only at h
    have helig := (select_available_eligible _ p h).1
    simp only [eligible_pod, Bool.and_eq_true, decide_eq_true_eq] at helig
    exact helig.1.1

theorem find_comfyui_url_ne_empty (ports : List RawPort) :
    find_comfyui_url ports ≠ some "" := by
  induction ports with
  | nil => simp [find_comfyui_url]
  | cons p rest ih =>
    unfold find_comfyui_url
    split
    · split
      case _ ip pp =>
        split
        · intro h
          simp only [Option.some.injEq] at h
          have hlen := congrArg String.length h
          rw [String.length_append, String.length_append, String.length_append] at hlen
          have h7 : ("http://" : String).length = 7 := rfl
          have hc : (":" : String).length = 1 := rfl
          have h0 : ("" : String).length = 0 := rfl
          rw [h7, hc, h0] at hlen
          omega
        · exact ih
      case _ => exact ih
    · exact ih

/-- The URL stored for a pod parsed from the listing is never the empty
string: it is `none` or a `http://ip:port` literal.  This is the registry
invariant under which "truthy URL" and "non-null URL" coincide. -/
theorem parse_pod_url_ne_empty (r : RawPod) :
    (parse_pod r).comfyui_url ≠ some "" := by
  obtain ⟨rid, rname, rds, rports, rgpu⟩ := r
  cases rports with
  | none => simp [parse_pod]
  | some ports =>
    show (if (ports != []) = true then find_comfyui_url ports else none) ≠ some ""
    by_cases hne : (ports != []) = true
    · rw [if_pos hne]
      exact find_comfyui_url_ne_empty ports
    · rw [if_neg hne]
      simp

theorem eligible_pod_iff (p : Pod) (hw : p.comfyui_url ≠ some "") :
    eligible_pod p = true ↔
      (p.status = PodStatus.RUNNING ∧ p.is_healthy = true ∧ p.comfyui_url ≠ none) := by
  unfold eligible_pod
  cases hurl : p.comfyui_url with
  | none => simp [pyTruthyOptStr, hurl]
  | some u =>
    have hu : u ≠ "" := by
      intro he
      exact hw (by rw [hurl, he])
    simp [pyTruthyOptStr, hurl, hu, Bool.and_eq_true, decide_eq_true_eq]

/-- **C2** (confirmed): over any registry pod map whose URLs respect the
listing invariant (never `some ""`, the first conjunct), `get_available_pod`
selects a pod with desired status `RUNNING`, health `true` and a non-null
endpoint URL; it answers `none` exactly when no pod of the map satisfies the
three conditions; a returned pod is the first qualifying pod in the map's
listing order; and the selection is made on the post-refresh map. -/
theorem get_available_pod_spec (pods : List Pod)
    (hwf : ∀ p ∈ pods, p.comfyui_url ≠ some "") :
    (∀ r : RawPod, (parse_pod r).comfyui_url ≠ some "") ∧
    (∀ p, select_available pods = some p →
      p.status = PodStatus.RUNNING ∧ p.is_healthy = true ∧ p.comfyui_url ≠ none) ∧
    (select_available pods = none ↔
      ∀ p ∈ pods, ¬(p.status = PodStatus.RUNNING ∧ p.is_healthy = true ∧ p.comfyui_url ≠ none)) ∧
    (∀ p, select_available pods = some p →
      ∃ pre post, pods = pre ++ p :: post ∧
        ∀ q ∈ pre, ¬(q.status = PodStatus.RUNNING ∧ q.is_healthy = true ∧ q.comfyui_url ≠ none)) ∧
    (∀ st now fetched probe,
      (get_available_pod st now fetched probe).2 =
        select_available ((refresh_pods st now false fetched probe).1.pods)) := by
  refine ⟨parse_pod_url_ne_empty, ?_, ?_, ?_, fun st now fetched probe => rfl⟩
  · intro p h
    obtain ⟨helig, hmem⟩ := select_available_eligible pods p h
    exact (eligible_pod_iff p (hwf p hmem)).mp helig
  · constructor
    · intro hnone p hp hspec
      have hfil : pods.filter eligible_pod = [] := by
        unfold select_available at hnone
        exact List.head?_eq_none_iff.mp hnone
      have hnp : ¬ eligible_pod p = true := by
        intro he
        have hmem : p ∈ pods.filter eligible_pod := List.mem_filter.mpr ⟨hp, he⟩
        rw [hfil] at hmem
        simp at hmem
      exact hnp ((eligible_pod_iff p (hwf p hp)).mpr hspec)
    · intro hall
      unfold select_available
      rw [List.head?_eq_none_iff, List.filter_eq_nil_iff]
      intro p hp helig
      exact hall p hp ((eligible_pod_iff p (hwf p hp)).mp helig)
  · intro p h
    obtain ⟨pre, post, heq, hpre⟩ := select_available_first pods p h
    refine ⟨pre, post, heq, ?_⟩
    intro q hq
    have hqmem : q ∈ pods := by
      rw [heq]
      exact List.mem_append_left _ hq
    intro hspec
    have := (eligible_pod_iff q (hwf q hqmem)).mpr hspec
    rw [hpre q hq] at this
    exact Bool.false_ne_true this

/-- Witness for C2 on the one-pod map `[sample_pod]`: the selected pod is
running, healthy and has a non-null endpoint. -/
theorem get_available_pod_spec_witness :
    sample_pod.status = PodStatus.RUNNING ∧ sample_pod.is_healthy = true ∧
      sample_pod.comfyui_url ≠ none :=
  (get_available_pod_spec [sample_pod] (by decide)).2.1 sample_pod (by decide)

theorem refresh_pods_skip (st : MState) (now : Nat) (fetched : List RawPod)
    (probe : Pod → Bool) (t : Nat) (ht : st.last_refresh = some t)
    (hlt : now - t < 30) :
    refresh_pods st now false fetched probe = (st, 0) := by
  unfold refresh_pods
  rw [ht]
  simp [hlt]

theorem refresh_pods_fetch (st : MState) (now : Nat) (force : Bool)
    (fetched : List RawPod) (probe : Pod → Bool)
    (h : force = true ∨ st.last_refresh = none ∨
      ∃ t, st.last_refresh = some t ∧ ¬ now - t < 30) :
    refresh_pods st now force fetched probe =
      ({ st with
          pods := (list_pods st fetched).1.map (check_pod_health probe now)
          last_refresh := some now }, (list_pods st fetched).2) := by
  unfold refresh_pods
  rcases h with hf | hn | ⟨t, ht, hge⟩
  · subst hf; simp
  · rw [hn]; simp
  · rw [ht]; simp [hge]

theorem refresh_pods_count_le_one (st : MState) (now : Nat) (force : Bool)
    (fetched : List RawPod) (probe : Pod → Bool) :
    (refresh_pods st now force fetched probe).2 ≤ 1 := by
  unfold refresh_pods
  split
  · simp
  · unfold list_pods
    split <;> simp

/-- **C8 counterexample**: a configured manager whose last refresh was at
instant 0 gets two non-forced `refresh_pods` calls at instants 29 and 58 —
separated by 29 s, inside the 30-second staleness interval.  The first call
is a no-op (count 0) but the second performs a control-plane fetch
(count 1), refuting "the second call returns immediately without fetching".
Moreover `refresh_pods(force=true)` on an unconfigured manager performs no
control-plane listing fetch, refuting "force=true always performs the
fetch". -/
theorem refresh_staleness_counterexample :
    58 - 29 < 30 ∧
    (refresh_pods stale_mstate 29 false [] (fun _ => false)).2 = 0 ∧
    (refresh_pods (refresh_pods stale_mstate 29 false [] (fun _ => false)).1 58 false []
        (fun _ => false)).2 = 1 ∧
    (refresh_pods unconfigured_mstate 0 true [] (fun _ => false)).2 = 0 :=
  ⟨by decide, rfl, rfl, rfl⟩

/-- **C8** (corrected): two non-forced `refresh_pods` calls separated by
less than the 30-second staleness interval perform at most one control-plane
listing fetch in total, and whenever the first call did fetch, the second
returns without fetching; `refresh_pods(force=true)` always performs the
listing fetch provided the pool credentials are configured, while an
unconfigured manager never issues a control-plane request at all. -/
theorem refresh_staleness_spec (st : MState) (t1 t2 : Nat) (f1 f2 : List RawPod)
    (pr1 pr2 : Pod → Bool) (hsep : t2 - t1 < 30) :
    ((refresh_pods st t1 false f1 pr1).2 +
        (refresh_pods (refresh_pods st t1 false f1 pr1).1 t2 false f2 pr2).2 ≤ 1) ∧
    (1 ≤ (refresh_pods st t1 false f1 pr1).2 →
        (refresh_pods (refresh_pods st t1 false f1 pr1).1 t2 false f2 pr2).2 = 0) ∧
    (∀ st2 now fe pr, is_configured st2 = true →
        (refresh_pods st2 now true fe pr).2 = 1) ∧
    (∀ st2 now force fe pr, is_configured st2 = false →
        (refresh_pods st2 now force fe pr).2 = 0) := by
  have hforced : ∀ st2 now fe pr, is_configured st2 = true →
      (refresh_pods st2 now true fe pr).2 = 1 := by
    intro st2 now fe pr hc
    rw [refresh_pods_fetch st2 now true fe pr (Or.inl rfl)]
    simp [list_pods, hc]
  have hunconf : ∀ st2 now force fe pr, is_configured st2 = false →
      (refresh_pods st2 now force fe pr).2 = 0 := by
    intro st2 now force fe pr hc
    unfold refresh_pods
    split
    · rfl
    · simp [list_pods, hc]
  have hmain : (refresh_pods st t1 false f1 pr1).2 +
        (refresh_pods (refresh_pods st t1 false f1 pr1).1 t2 false f2 pr2).2 ≤ 1 ∧
      (1 ≤ (refresh_pods st t1 false f1 pr1).2 →
        (refresh_pods (refresh_pods st t1 false f1 pr1).1 t2 false f2 pr2).2 = 0) := by
    by_cases hskip : ∃ t, st.last_refresh = some t ∧ t1 - t < 30
    · obtain ⟨t, ht, hlt⟩ := hskip
      rw [refresh_pods_skip st t1 f1 pr1 t ht hlt]
      constructor
      · simpa using refresh_pods_count_le_one st t2 false f2 pr2
      · intro h
        simp at h
    · have hcond : st.last_refresh = none ∨ ∃ t, st.last_refresh = some t ∧ ¬ t1 - t < 30 := by
        cases hlr : st.last_refresh with
        | none => exact Or.inl rfl
        | some t =>
          refine Or.inr ⟨t, rfl, ?_⟩
          intro hlt
          exact hskip ⟨t, hlr, hlt⟩
      rw [refresh_pods_fetch st t1 false f1 pr1 (Or.inr hcond)]
      have hsecond : refresh_pods
          ({ st with
              pods := (list_pods st f1).1.map (check_pod_health pr1 t1)
              last_refresh := some t1 }) t2 false f2 pr2 =
          ({ st with
              pods := (list_pods st f1).1.map (check_pod_health pr1 t1)
              last_refresh := some t1 }, 0) :=
        refresh_pods_skip _ t2 f2 pr2 t1 rfl hsep
      rw [hsecond]
      constructor
      · have : (list_pods st f1).2 ≤ 1 := by
          unfold list_pods
          split <;> simp
        simpa using this
      · intro _
        rfl
  exact ⟨hmain.1, hmain.2, hforced, hunconf⟩

/-- Witness for C8 at a configured, never-refreshed manager and calls at
instants 100 and 120: at most one fetch happens in total. -/
theorem refresh_staleness_spec_witness :
    (refresh_pods fetchable_mstate 100 false [] (fun _ => false)).2 +
      (refresh_pods (refresh_pods fetchable_mstate 100 false [] (fun _ => false)).1 120 false []
        (fun _ => false)).2 ≤ 1 :=
  (refresh_staleness_spec fetchable_mstate 100 120 [] [] (fun _ => false) (fun _ => false)
    (by decide)).1

/-- **C4 counterexample**: with pool credentials configured but no pod
available (empty upstream listing), `get_comfyui_url` still returns the
static configured endpoint — the static fallback is not exclusive to the
unconfigured case.  The refreshed map is empty, so the returned URL cannot
be any pool worker's. -/
theorem configured_static_fallback :
    is_configured fetchable_mstate = true ∧
    (get_comfyui_url fetchable_mstate "http://static:8188" 0 [] (fun _ => false)).2 =
      "http://static:8188" ∧
    (get_comfyui_url fetchable_mstate "http://static:8188" 0 [] (fun _ => false)).1.1.pods = [] :=
  ⟨rfl, rfl, rfl⟩

/-- **C4** (corrected): when no pool credentials are configured,
`get_comfyui_url` returns the static configured endpoint with no
control-plane request and no state change; when credentials are configured,
it returns the selected pool worker's (non-empty) URL if a worker is
available, and otherwise falls back to the same static endpoint. -/
theorem get_comfyui_url_spec (st : MState) (static_url : String) (now : Nat)
    (fetched : List RawPod) (probe : Pod → Bool) :
    (is_configured st = false →
      get_comfyui_url st static_url now fetched probe = ((st, 0), static_url)) ∧
    (is_configured st = true →
      (∀ p, (get_available_pod st now fetched probe).2 = some p →
        ∃ u, p.comfyui_url = some u ∧ u ≠ "" ∧
          (get_comfyui_url st static_url now fetched probe).2 = u) ∧
      ((get_available_pod st now fetched probe).2 = none →
        (get_comfyui_url st static_url now fetched probe).2 = static_url)) := by
  constructor
  · intro h
    unfold get_comfyui_url
    rw [h]
    simp
  · intro hc
    constructor
    · intro p hp
      have helig : eligible_pod p = true :=
        (select_available_eligible ((refresh_pods st now false fetched probe).1.pods) p hp).1
      have hpy : pyTruthyOptStr p.comfyui_url = true := by
        simp only [eligible_pod, Bool.and_eq_true] at helig
        exact helig.2
      cases hurl : p.comfyui_url with
      | none => rw [hurl] at hpy; simp [pyTruthyOptStr] at hpy
      | some u =>
        rw [hurl] at hpy
        have hu : u ≠ "" := by
          simpa [pyTruthyOptStr] using hpy
        refine ⟨u, rfl, hu, ?_⟩
        unfold get_comfyui_url
        rw [hc]
        simp only [Bool.not_true, Bool.false_eq_true, if_false]
        rw [hp]
        simp [pyTruthyOptStr, hurl, hu]
    · intro hnone
      unfold get_comfyui_url
      rw [hc]
      simp only [Bool.not_true, Bool.false_eq_true, if_false]
      rw [hnone]

/-- Witness for C4: on an unconfigured manager the static endpoint is
returned with zero control-plane requests and the state unchanged. -/
theorem get_comfyui_url_spec_witness :
    get_comfyui_url unconfigured_mstate "http://localhost:8188" 0 [] (fun _ => false) =
      ((unconfigured_mstate, 0), "http://localhost:8188") :=
  (get_comfyui_url_spec unconfigured_mstate "http://localhost:8188" 0 [] (fun _ => false)).1 rfl

/-- Witness for C10: the unrecognized status `"PAUSED"` parses to `ERROR`,
both bare and inside a listing entry. -/
theorem unknown_status_error_pod_witness :
    parse_pod_status "PAUSED" = PodStatus.ERROR ∧
    (parse_pod paused_raw_pod).status = PodStatus.ERROR :=
  ⟨unknown_status_error_pod.1 "PAUSED" (by decide),
   unknown_status_error_pod.2.1 paused_raw_pod "PAUSED" rfl (by decide)⟩

theorem alGet_setNodeInput_ne (w : Workflow) (nid key : String) (v : JVal)
    (k : String) (h : k ≠ nid) :
    alGet (setNodeInput w nid key v) k = alGet w k := by
  induction w with
  | nil => rfl
  | cons hd t ih =>
    obtain ⟨k1, n1⟩ := hd
    unfold setNodeInput
    by_cases hk1 : k1 = nid
    · rw [if_pos hk1]
      have hne : k1 ≠ k := by rw [hk1]; exact fun hh => h hh.symm
      show alGet _ k = alGet _ k
      unfold alGet
      rw [if_neg hne, if_neg hne]
    · rw [if_neg hk1]
      unfold alGet
      by_cases hk : k1 = k
      · rw [if_pos hk, if_pos hk]
      · rw [if_neg hk, if_neg hk]
        exact ih

theorem alGet_setNodeInput_self (w : Workflow) (nid key : String) (v : JVal) :
    alGet (setNodeInput w nid key v) nid =
      (alGet w nid).map (fun n => { n with inputs := alSet n.inputs key v }) := by
  induction w with
  | nil => rfl
  | cons hd t ih =>
    obtain ⟨k1, n1⟩ := hd
    unfold setNodeInput
    by_cases hk1 : k1 = nid
    · subst hk1
      simp [alGet]
    · rw [if_neg hk1]
      simp [alGet, hk1, ih]

theorem getInput_setNodeInput_skip (w : Workflow) (nid key : String) (v : JVal)
    (k kk : String) (h : ¬(k = nid ∧ kk = key)) :
    getInput (setNodeInput w nid key v) k kk = getInput w k kk := by
  by_cases hk : k = nid
  · subst hk
    have hkk : kk ≠ key := fun hkk => h ⟨rfl, hkk⟩
    unfold getInput
    rw [alGet_setNodeInput_self]
    cases alGet w k with
    | none => rfl
    | some n => simp [alGet_alSet_ne n.inputs key kk v hkk]
  · unfold getInput
    rw [alGet_setNodeInput_ne w nid key v k hk]

theorem getInput_setNodeInput_self (w : Workflow) (nid key : String) (v : JVal)
    (h : alHas w nid = true) :
    getInput (setNodeInput w nid key v) nid key = some v := by
  unfold getInput
  rw [alGet_setNodeInput_self]
  unfold alHas at h
  cases hg : alGet w nid with
  | none => rw [hg] at h; simp at h
  | some n => simp [alGet_alSet_self]

theorem alHas_setNodeInput (w : Workflow) (nid key : String) (v : JVal) (k : String) :
    alHas (setNodeInput w nid key v) k = alHas w k := by
  unfold alHas
  by_cases hk : k = nid
  · subst hk
    rw [alGet_setNodeInput_self]
    cases alGet w k <;> rfl
  · rw [alGet_setNodeInput_ne w nid key v k hk]

theorem restMap_setNodeInput (w : Workflow) (nid key : String) (v : JVal) (k : String) :
    restMap (setNodeInput w nid key v) k = restMap w k := by
  unfold restMap
  by_cases hk : k = nid
  · subst hk
    rw [alGet_setNodeInput_self]
    cases alGet w k <;> rfl
  · rw [alGet_setNodeInput_ne w nid key v k hk]

theorem foldl_set_alGet_ne (kvs : List (String × JVal)) (w : Workflow)
    (nid k : String) (h : k ≠ nid) :
    alGet (kvs.foldl (fun w kv => setNodeInput w nid kv.1 kv.2) w) k = alGet w k := by
  induction kvs generalizing w with
  | nil => rfl
  | cons a t ih => rw [List.foldl_cons, ih, alGet_setNodeInput_ne _ _ _ _ _ h]

theorem alGet_inject_block_ne (w : Workflow) (nid : String)
    (kvs : List (String × JVal)) (k : String) (h : k ≠ nid) :
    alGet (inject_block w nid kvs) k = alGet w k := by
  unfold inject_block
  split
  · exact foldl_set_alGet_ne kvs w nid k h
  · rfl

theorem foldl_set_getInput_skip (kvs : List (String × JVal)) (w : Workflow)
    (nid k kk : String) (h : k ≠ nid ∨ kk ∉ kvs.map Prod.fst) :
    getInput (kvs.foldl (fun w kv => setNodeInput w nid kv.1 kv.2) w) k kk =
      getInput w k kk := by
  induction kvs generalizing w with
  | nil => rfl
  | cons a t ih =>
    rw [List.foldl_cons]
    have hskip : ¬(k = nid ∧ kk = a.1) := by
      rcases h with h | h
      · exact fun hc => h hc.1
      · intro hc
        exact h (by rw [hc.2]; simp)
    have ht : k ≠ nid ∨ kk ∉ t.map Prod.fst := by
      rcases h with h | h
      · exact Or.inl h
      · right
        intro hm
        exact h (by simp [hm])
    rw [ih _ ht, getInput_setNodeInput_skip _ _ _ _ _ _ hskip]

theorem getInput_inject_block_skip (w : Workflow) (nid : String)
    (kvs : List (String × JVal)) (k kk : String)
    (h : k ≠ nid ∨ kk ∉ kvs.map Prod.fst) :
    getInput (inject_block w nid kvs) k kk = getInput w k kk := by
  unfold inject_block
  split
  · exact foldl_set_getInput_skip kvs w nid k kk h
  · rfl

theorem foldl_set_alHas (kvs : List (String × JVal)) (w : Workflow) (nid k : String) :
    alHas (kvs.foldl (fun w kv => setNodeInput w nid kv.1 kv.2) w) k = alHas w k := by
  induction kvs generalizing w with
  | nil => rfl
  | cons a t ih => rw [List.foldl_cons, ih, alHas_setNodeInput]

theorem alHas_inject_block (w : Workflow) (nid : String)
    (kvs : List (String × JVal)) (k : String) :
    alHas (inject_block w nid kvs) k = alHas w k := by
  unfold inject_block
  split
  · exact foldl_set_alHas kvs w nid k
  · rfl

theorem foldl_set_restMap (kvs : List (String × JVal)) (w : Workflow) (nid k : String) :
    restMap (kvs.foldl (fun w kv => setNodeInput w nid kv.1 kv.2) w) k = restMap w k := by
  induction kvs generalizing w with
  | nil => rfl
  | cons a t ih => rw [List.foldl_cons, ih, restMap_setNodeInput]

theorem restMap_inject_block (w : Workflow) (nid : String)
    (kvs : List (String × JVal)) (k : String) :
    restMap (inject_block w nid kvs) k = restMap w k := by
  unfold inject_block
  split
  · exact foldl_set_restMap kvs w nid k
  · rfl

theorem foldl_set_getInput_write (kvs : List (String × JVal)) (w : Workflow)
    (nid key : String) (v : JVal) (h : alHas w nid = true)
    (hnd : (kvs.map Prod.fst).Nodup) (hmem : (key, v) ∈ kvs) :
    getInput (kvs.foldl (fun w kv => setNodeInput w nid kv.1 kv.2) w) nid key = some v := by
  induction kvs generalizing w with
  | nil => cases hmem
  | cons a t ih =>
    rw [List.foldl_cons]
    rw [List.map_cons] at hnd
    rcases List.mem_cons.mp hmem with heq | hmem'
    · have ha1 : a.1 = key := by rw [← heq]
      rw [ha1] at hnd
      have hkeys : key ∉ t.map Prod.fst := (List.nodup_cons.mp hnd).1
      rw [foldl_set_getInput_skip t _ nid nid key (Or.inr hkeys)]
      rw [← heq]
      exact getInput_setNodeInput_self w nid key v h
    · exact ih _ (by rw [alHas_setNodeInput]; exact h) (List.nodup_cons.mp hnd).2 hmem'

theorem getInput_inject_block_write (w : Workflow) (nid : String)
    (kvs : List (String × JVal)) (key : String) (v : JVal)
    (h : alHas w nid = true) (hnd : (kvs.map Prod.fst).Nodup) (hmem : (key, v) ∈ kvs) :
    getInput (inject_block w nid kvs) nid key = some v := by
  unfold inject_block
  rw [if_pos h]
  exact foldl_set_getInput_write kvs w nid key v h hnd hmem

theorem image_update_lookup (store : ImageStore) (gid : String)
    (st : GenerationStatus) (url err : Option String) (r : ImageRecord)
    (h : alGet store gid = some r) :
    ImageGen.update_generation_status store gid st url err =
      alSet store gid
        (let g := { r with status := st }
         let g := if pyTruthyOptStr url then { g with image_url := url } else g
         if pyTruthyOptStr err then { g with error := err } else g) := by
  unfold ImageGen.update_generation_status
  rw [h]

theorem video_update_lookup (store : VideoStore) (gid : String)
    (st : GenerationStatus) (vurl turl err : Option String) (r : VideoRecord)
    (h : alGet store gid = some r) :
    VideoGen.update_generation_status store gid st vurl turl err =
      alSet store gid
        (let g := { r with status := st }
         let g := if pyTruthyOptStr vurl then { g with video_url := vurl } else g
         let g := if pyTruthyOptStr turl then { g with thumbnail_url := turl } else g
         if pyTruthyOptStr err then { g with error := err } else g) := by
  unfold VideoGen.update_generation_status
  rw [h]

theorem image_update_processing_lookup (store : ImageStore) (gid : String)
    (r : ImageRecord) (h : alGet store gid = some r) :
    alGet (ImageGen.update_generation_status store gid .processing none none) gid =
      some { r with status := .processing } := by
  rw [image_update_lookup store gid .processing none none r h]
  simp [pyTruthyOptStr, alGet_alSet_self]

theorem video_update_processing_lookup (store : VideoStore) (gid : String)
    (r : VideoRecord) (h : alGet store gid = some r) :
    alGet (VideoGen.update_generation_status store gid .processing none none none) gid =
      some { r with status := .processing } := by
  rw [video_update_lookup store gid .processing none none none r h]
  simp [pyTruthyOptStr, alGet_alSet_self]

/-- **C1 counterexample**: a step failing with an exception whose message is
the empty string (`str(e) == ""`, e.g. a bare `ValueError()`).  The record
is marked Failed and the exception re-raised, but — because
`update_generation_status` guards `if error:` on Python truthiness — the
record's error text is left `None` rather than set to the (empty) message
verbatim. -/
theorem failure_empty_message_not_captured :
    (ImageGen.generate_image_task failing_image_env [] cex_character cex_image_request 0
        cex_image_store "g1").2.1 = Except.error "" ∧
    alGet (ImageGen.generate_image_task failing_image_env [] cex_character cex_image_request 0
        cex_image_store "g1").1 "g1" =
      some { status := GenerationStatus.failed, image_url := none, error := none } :=
  ⟨rfl, rfl⟩

/-- **C1** (corrected): for both generation tasks, if any step after the
record is marked Processing raises, the orchestrator marks the record
Failed, captures the exception's message verbatim as the error text
whenever that message is non-empty (an empty message leaves the error text
unchanged, by the `if error:` truthiness guard), leaves the output URLs
untouched, and re-raises the same exception to the caller. -/
theorem failure_recorded_and_rethrown
    (envI : ImageGen.Env) (envV : VideoGen.Env)
    (tmplI tmplVI tmplVV : Workflow) (ch : Character)
    (reqI : ImageGenerationRequest) (reqV : VideoGenerationRequest)
    (eI eVI eVV : Nat) (storeI : ImageStore) (storeV : VideoStore)
    (gid : String) (rI : ImageRecord) (rV : VideoRecord) (msg : String)
    (hI : alGet storeI gid = some rI) (hV : alGet storeV gid = some rV) :
    (ImageGen.task_body envI tmplI ch reqI eI
        (ImageGen.update_generation_status storeI gid .processing none none) gid =
          Except.error msg →
      (ImageGen.generate_image_task envI tmplI ch reqI eI storeI gid).2.1 =
          Except.error msg ∧
      ∃ r2, alGet (ImageGen.generate_image_task envI tmplI ch reqI eI storeI gid).1 gid =
          some r2 ∧
        r2.status = .failed ∧ r2.image_url = rI.image_url ∧
        (msg ≠ "" → r2.error = some msg) ∧ (msg = "" → r2.error = rI.error)) ∧
    (VideoGen.task_body envV tmplVI tmplVV ch reqV eVI eVV
        (VideoGen.update_generation_status storeV gid .processing none none none) gid =
          Except.error msg →
      (VideoGen.generate_video_task envV tmplVI tmplVV ch reqV eVI eVV storeV gid).2.1 =
          Except.error msg ∧
      ∃ r2, alGet (VideoGen.generate_video_task envV tmplVI tmplVV ch reqV eVI eVV storeV gid).1 gid =
          some r2 ∧
        r2.status = .failed ∧ r2.video_url = rV.video_url ∧
        r2.thumbnail_url = rV.thumbnail_url ∧
        (msg ≠ "" → r2.error = some msg) ∧ (msg = "" → r2.error = rV.error)) := by
  constructor
  · intro hbody
    have hres : ImageGen.generate_image_task envI tmplI ch reqI eI storeI gid =
        (ImageGen.update_generation_status
            (ImageGen.update_generation_status storeI gid .processing none none)
            gid .failed none (some msg),
          Except.error msg,
          [GenerationStatus.processing, GenerationStatus.failed]) := by
      simp only [ImageGen.generate_image_task]
      rw [hbody]
    rw [hres]
    refine ⟨rfl, ?_⟩
    have h1 : alGet (ImageGen.update_generation_status storeI gid .processing none none) gid =
        some { rI with status := .processing } :=
      image_update_processing_lookup storeI gid rI hI
    rw [image_update_lookup _ gid .failed none (some msg) _ h1]
    by_cases hmsg : msg = ""
    · subst hmsg
      refine ⟨{ rI with status := .failed }, ?_, rfl, rfl, ?_, fun _ => rfl⟩
      · simp [pyTruthyOptStr, alGet_alSet_self]
      · intro h; exact absurd rfl h
    · refine ⟨{ rI with status := .failed, error := some msg }, ?_, rfl, rfl,
        fun _ => rfl, fun h => absurd h hmsg⟩
      simp [pyTruthyOptStr, alGet_alSet_self, hmsg]
  · intro hbody
    have hres : VideoGen.generate_video_task envV tmplVI tmplVV ch reqV eVI eVV storeV gid =
        (VideoGen.update_generation_status
            (VideoGen.update_generation_status storeV gid .processing none none none)
            gid .failed none none (some msg),
          Except.error msg,
          [GenerationStatus.processing, GenerationStatus.failed]) := by
      simp only [VideoGen.generate_video_task]
      rw [hbody]
    rw [hres]
    refine ⟨rfl, ?_⟩
    have h1 : alGet (VideoGen.update_generation_status storeV gid .processing none none none) gid =
        some { rV with status := .processing } :=
      video_update_processing_lookup storeV gid rV hV
    rw [video_update_lookup _ gid .failed none none (some msg) _ h1]
    by_cases hmsg : msg = ""
    · subst hmsg
      refine ⟨{ rV with status := .failed }, ?_, rfl, rfl, rfl, ?_, fun _ => rfl⟩
      · simp [pyTruthyOptStr, alGet_alSet_self]
      · intro h; exact absurd rfl h
    · refine ⟨{ rV with status := .failed, error := some msg }, ?_, rfl, rfl, rfl,
        fun _ => rfl, fun h => absurd h hmsg⟩
      simp [pyTruthyOptStr, alGet_alSet_self, hmsg]

/-- Witness for C1 at a concrete failing environment: both tasks re-raise
`"connect refused"` and both records end Failed with that error text. -/
theorem failure_recorded_and_rethrown_witness :
    ((ImageGen.generate_image_task boom_image_env [] cex_character cex_image_request 0
        cex_image_store "g1").2.1 = Except.error "connect refused" ∧
      ∃ r2, alGet (ImageGen.generate_image_task boom_image_env [] cex_character
          cex_image_request 0 cex_image_store "g1").1 "g1" = some r2 ∧
        r2.status = .failed ∧ r2.image_url = none ∧
        ("connect refused" ≠ "" → r2.error = some "connect refused") ∧
        ("connect refused" = "" → r2.error = none)) ∧
    ((VideoGen.generate_video_task boom_video_env [] [] cex_character cex_video_request 0 0
        cex_video_store "g1").2.1 = Except.error "connect refused" ∧
      ∃ r2, alGet (VideoGen.generate_video_task boom_video_env [] [] cex_character
          cex_video_request 0 0 cex_video_store "g1").1 "g1" = some r2 ∧
        r2.status = .failed ∧ r2.video_url = none ∧ r2.thumbnail_url = none ∧
        ("connect refused" ≠ "" → r2.error = some "connect refused") ∧
        ("connect refused" = "" → r2.error = none)) :=
  ⟨(failure_recorded_and_rethrown boom_image_env boom_video_env [] [] [] cex_character
      cex_image_request cex_video_request 0 0 0 cex_image_store cex_video_store "g1"
      { status := GenerationStatus.pending } { status := GenerationStatus.pending }
      "connect refused" rfl rfl).1 rfl,
   (failure_recorded_and_rethrown boom_image_env boom_video_env [] [] [] cex_character
      cex_image_request cex_video_request 0 0 0 cex_image_store cex_video_store "g1"
      { status := GenerationStatus.pending } { status := GenerationStatus.pending }
      "connect refused" rfl rfl).2 rfl⟩

/-- **C5** (confirmed): in every run of either generation task, the statuses
passed to the status-update operation, starting from the record's initial
Pending state, move strictly forward along Pending → Processing →
{Completed | Failed}; a terminal status is only ever the final update of the
run, so a record that has reached Completed or Failed is never re-mutated by
the orchestrator. -/
theorem status_trace_monotone
    (envI : ImageGen.Env) (envV : VideoGen.Env)
    (tmplI tmplVI tmplVV : Workflow) (ch : Character)
    (reqI : ImageGenerationRequest) (reqV : VideoGenerationRequest)
    (eI eVI eVV : Nat) (storeI : ImageStore) (storeV : VideoStore) (gid : String) :
    (List.Chain' (fun a b => statusRank a < statusRank b)
        (GenerationStatus.pending ::
          (ImageGen.generate_image_task envI tmplI ch reqI eI storeI gid).2.2) ∧
      ∀ s ∈ (ImageGen.generate_image_task envI tmplI ch reqI eI storeI gid).2.2.dropLast,
        isTerminal s = false) ∧
    (List.Chain' (fun a b => statusRank a < statusRank b)
        (GenerationStatus.pending ::
          (VideoGen.generate_video_task envV tmplVI tmplVV ch reqV eVI eVV storeV gid).2.2) ∧
      ∀ s ∈ (VideoGen.generate_video_task envV tmplVI tmplVV ch reqV eVI eVV storeV gid).2.2.dropLast,
        isTerminal s = false) := by
  constructor
  · cases hb : ImageGen.task_body envI tmplI ch reqI eI
        (ImageGen.update_generation_status storeI gid .processing none none) gid with
    | ok s =>
      simp only [ImageGen.generate_image_task]
      rw [hb]
      constructor
      · simp [List.chain'_cons, List.chain'_singleton, statusRank]
      · simp [isTerminal]
    | error e =>
      simp only [ImageGen.generate_image_task]
      rw [hb]
      constructor
      · simp [List.chain'_cons, List.chain'_singleton, statusRank]
      · simp [isTerminal]
  · cases hb : VideoGen.task_body envV tmplVI tmplVV ch reqV eVI eVV
        (VideoGen.update_generation_status storeV gid .processing none none none) gid with
    | ok s =>
      simp only [VideoGen.generate_video_task]
      rw [hb]
      constructor
      · simp [List.chain'_cons, List.chain'_singleton, statusRank]
      · simp [isTerminal]
    | error e =>
      simp only [VideoGen.generate_video_task]
      rw [hb]
      constructor
      · simp [List.chain'_cons, List.chain'_singleton, statusRank]
      · simp [isTerminal]

theorem build_image_alGet_frame (tmpl : Workflow) (ch : Character)
    (req : ImageGenerationRequest) (entropy : Nat) (nid : String)
    (h3 : nid ≠ "3") (h5 : nid ≠ "5") (h6 : nid ≠ "6") (h7 : nid ≠ "7")
    (h10 : nid ≠ "10") :
    alGet (build_image_workflow tmpl ch req entropy) nid = alGet tmpl nid := by
  simp only [build_image_workflow]
  rw [alGet_inject_block_ne _ _ _ _ h10, alGet_inject_block_ne _ _ _ _ h7,
    alGet_inject_block_ne _ _ _ _ h6, alGet_inject_block_ne _ _ _ _ h5,
    alGet_inject_block_ne _ _ _ _ h3]

theorem build_image_getInput_frame (tmpl : Workflow) (ch : Character)
    (req : ImageGenerationRequest) (entropy : Nat) (nid key : String)
    (hkey : key ∉ image_injection_keys nid) :
    getInput (build_image_workflow tmpl ch req entropy) nid key =
      getInput tmpl nid key := by
  by_cases h3 : nid = "3"
  · subst h3
    have hk : key ∉ (["seed", "steps", "cfg"] : List String) := by
      simpa [image_injection_keys] using hkey
    simp only [build_image_workflow]
    rw [getInput_inject_block_skip _ "10" _ "3" _ (Or.inl (by decide)),
      getInput_inject_block_skip _ "7" _ "3" _ (Or.inl (by decide)),
      getInput_inject_block_skip _ "6" _ "3" _ (Or.inl (by decide)),
      getInput_inject_block_skip _ "5" _ "3" _ (Or.inl (by decide)),
      getInput_inject_block_skip _ "3" _ "3" key (Or.inr (by simpa using hk))]
  by_cases h5 : nid = "5"
  · subst h5
    have hk : key ∉ (["width", "height"] : List String) := by
      simpa [image_injection_keys] using hkey
    simp only [build_image_workflow]
    rw [getInput_inject_block_skip _ "10" _ "5" _ (Or.inl (by decide)),
      getInput_inject_block_skip _ "7" _ "5" _ (Or.inl (by decide)),
      getInput_inject_block_skip _ "6" _ "5" _ (Or.inl (by decide)),
      getInput_inject_block_skip _ "5" _ "5" key (Or.inr (by simpa using hk)),
      getInput_inject_block_skip _ "3" _ "5" _ (Or.inl (by decide))]
  by_cases h6 : nid = "6"
  · subst h6
    have hk : key ∉ (["text"] : List String) := by
      simpa [image_injection_keys] using hkey
    simp only [build_image_workflow]
    rw [getInput_inject_block_skip _ "10" _ "6" _ (Or.inl (by decide)),
      getInput_inject_block_skip _ "7" _ "6" _ (Or.inl (by decide)),
      getInput_inject_block_skip _ "6" _ "6" key (Or.inr (by simpa using hk)),
      getInput_inject_block_skip _ "5" _ "6" _ (Or.inl (by decide)),
      getInput_inject_block_skip _ "3" _ "6" _ (Or.inl (by decide))]
  by_cases h7 : nid = "7"
  · subst h7
    have hk : key ∉ (["text"] : List String) := by
      simpa [image_injection_keys] using hkey
    simp only [build_image_workflow]
    rw [getInput_inject_block_skip _ "10" _ "7" _ (Or.inl (by decide)),
      getInput_inject_block_skip _ "7" _ "7" key (Or.inr (by simpa using hk)),
      getInput_inject_block_skip _ "6" _ "7" _ (Or.inl (by decide)),
      getInput_inject_block_skip _ "5" _ "7" _ (Or.inl (by decide)),
      getInput_inject_block_skip _ "3" _ "7" _ (Or.inl (by decide))]
  by_cases h10 : nid = "10"
  · subst h10
    have hk : key ∉ (["lora_name", "strength_model", "strength_clip"] : List String) := by
      simpa [image_injection_keys] using hkey
    simp only [build_image_workflow]
    rw [getInput_inject_block_skip _ "10" _ "10" key (Or.inr (by simpa using hk)),
      getInput_inject_block_skip _ "7" _ "10" _ (Or.inl (by decide)),
      getInput_inject_block_skip _ "6" _ "10" _ (Or.inl (by decide)),
      getInput_inject_block_skip _ "5" _ "10" _ (Or.inl (by decide)),
      getInput_inject_block_skip _ "3" _ "10" _ (Or.inl (by decide))]
  unfold getInput
  rw [build_image_alGet_frame tmpl ch req entropy nid h3 h5 h6 h7 h10]

theorem build_image_restMap_frame (tmpl : Workflow) (ch : Character)
    (req : ImageGenerationRequest) (entropy : Nat) (nid : String) :
    restMap (build_image_workflow tmpl ch req entropy) nid = restMap tmpl nid := by
  simp only [build_image_workflow]
  rw [restMap_inject_block, restMap_inject_block, restMap_inject_block,
    restMap_inject_block, restMap_inject_block]

theorem build_image_alHas_frame (tmpl : Workflow) (ch : Character)
    (req : ImageGenerationRequest) (entropy : Nat) (nid : String) :
    alHas (build_image_workflow tmpl ch req entropy) nid = alHas tmpl nid := by
  simp only [build_image_workflow]
  rw [alHas_inject_block, alHas_inject_block, alHas_inject_block,
    alHas_inject_block, alHas_inject_block]

theorem build_image_seed_written (tmpl : Workflow) (ch : Character)
    (req : ImageGenerationRequest) (entropy : Nat) (h3 : alHas tmpl "3" = true) :
    getInput (build_image_workflow tmpl ch req entropy) "3" "seed" =
      some (.int (resolved_seed req.seed entropy)) := by
  simp only [build_image_workflow]
  rw [getInput_inject_block_skip _ "10" _ "3" _ (Or.inl (by decide)),
    getInput_inject_block_skip _ "7" _ "3" _ (Or.inl (by decide)),
    getInput_inject_block_skip _ "6" _ "3" _ (Or.inl (by decide)),
    getInput_inject_block_skip _ "5" _ "3" _ (Or.inl (by decide))]
  apply getInput_inject_block_write
  · exact h3
  · simp
  · simp

theorem build_image_writes (tmpl : Workflow) (ch : Character)
    (req : ImageGenerationRequest) (entropy : Nat) :
    (alHas tmpl "3" = true →
      getInput (build_image_workflow tmpl ch req entropy) "3" "seed" =
        some (.int (resolved_seed req.seed entropy)) ∧
      getInput (build_image_workflow tmpl ch req entropy) "3" "steps" =
        some (.int req.num_inference_steps) ∧
      getInput (build_image_workflow tmpl ch req entropy) "3" "cfg" =
        some (.rat req.guidance_scale)) ∧
    (alHas tmpl "5" = true →
      getInput (build_image_workflow tmpl ch req entropy) "5" "width" =
        some (.int req.width) ∧
      getInput (build_image_workflow tmpl ch req entropy) "5" "height" =
        some (.int req.height)) ∧
    (alHas tmpl "6" = true →
      getInput (build_image_workflow tmpl ch req entropy) "6" "text" =
        some (.str (ch.trigger_word ++ ", " ++ req.prompt))) ∧
    (alHas tmpl "7" = true →
      getInput (build_image_workflow tmpl ch req entropy) "7" "text" =
        some (.str req.negative_prompt)) ∧
    (alHas tmpl "10" = true →
      getInput (build_image_workflow tmpl ch req entropy) "10" "lora_name" =
        some (.str (path_name ch.lora_path)) ∧
      getInput (build_image_workflow tmpl ch req entropy) "10" "strength_model" =
        some (.rat req.lora_strength) ∧
      getInput (build_image_workflow tmpl ch req entropy) "10" "strength_clip" =
        some (.rat req.lora_strength)) := by
  refine ⟨?_, ?_, ?_, ?_, ?_⟩
  · intro h3
    refine ⟨build_image_seed_written tmpl ch req entropy h3, ?_, ?_⟩ <;>
    · simp only [build_image_workflow]
      rw [getInput_inject_block_skip _ "10" _ "3" _ (Or.inl (by decide)),
        getInput_inject_block_skip _ "7" _ "3" _ (Or.inl (by decide)),
        getInput_inject_block_skip _ "6" _ "3" _ (Or.inl (by decide)),
        getInput_inject_block_skip _ "5" _ "3" _ (Or.inl (by decide))]
      apply getInput_inject_block_write
      · exact h3
      · simp
      · simp
  · intro h5
    refine ⟨?_, ?_⟩ <;>
    · simp only [build_image_workflow]
      rw [getInput_inject_block_skip _ "10" _ "5" _ (Or.inl (by decide)),
        getInput_inject_block_skip _ "7" _ "5" _ (Or.inl (by decide)),
        getInput_inject_block_skip _ "6" _ "5" _ (Or.inl (by decide))]
      apply getInput_inject_block_write
      · rw [alHas_inject_block]
        exact h5
      · simp
      · simp
  · intro h6
    simp only [build_image_workflow]
    rw [getInput_inject_block_skip _ "10" _ "6" _ (Or.inl (by decide)),
      getInput_inject_block_skip _ "7" _ "6" _ (Or.inl (by decide))]
    apply getInput_inject_block_write
    · rw [alHas_inject_block, alHas_inject_block]
      exact h6
    · simp
    · simp
  · intro h7
    simp only [build_image_workflow]
    rw [getInput_inject_block_skip _ "10" _ "7" _ (Or.inl (by decide))]
    apply getInput_inject_block_write
    · rw [alHas_inject_block, alHas_inject_block, alHas_inject_block]
      exact h7
    · simp
    · simp
  · intro h10
    refine ⟨?_, ?_, ?_⟩ <;>
    · simp only [build_image_workflow]
      apply getInput_inject_block_write
      · rw [alHas_inject_block, alHas_inject_block, alHas_inject_block,
          alHas_inject_block]
        exact h10
      · simp
      · simp

theorem build_video_seed_written (tmpl : Workflow) (src : Option String)
    (req : VideoGenerationRequest) (entropy : Nat) (h3 : alHas tmpl "3" = true) :
    getInput (build_video_workflow tmpl src req entropy) "3" "seed" =
      some (.int (resolved_seed req.seed entropy)) := by
  simp only [build_video_workflow]
  apply getInput_inject_block_write
  · rw [alHas_inject_block, alHas_inject_block]
    exact h3
  · simp
  · simp

/-- Witness for C5 at a concrete failing run: the image task's update trace,
prefixed by Pending, is strictly forward. -/
theorem status_trace_monotone_witness :
    List.Chain' (fun a b => statusRank a < statusRank b)
      (GenerationStatus.pending ::
        (ImageGen.generate_image_task boom_image_env [] cex_character cex_image_request 0
          cex_image_store "g1").2.2) :=
  (status_trace_monotone boom_image_env boom_video_env [] [] [] cex_character
    cex_image_request cex_video_request 0 0 0 cex_image_store cex_video_store "g1").1.1

/-- **C6** (confirmed): `build_image_workflow` writes only the designated
injection keys of the known node ids `"3"`, `"5"`, `"6"`, `"7"`, `"10"`:
every other node id is left exactly as in the template, every
non-designated input key of the known nodes is unchanged, and node-level
structure beyond `inputs` (`restMap`) and the template's key set (`alHas`)
are preserved.  When node id `"5"` is absent the call is still total (no
exception): `"5"` stays absent, and the injection points of every present
node among `"3"`, `"6"`, `"7"`, `"10"` are still written. -/
theorem build_image_workflow_frame (tmpl : Workflow) (ch : Character)
    (req : ImageGenerationRequest) (entropy : Nat) :
    (∀ nid, nid ∉ (["3", "5", "6", "7", "10"] : List String) →
      alGet (build_image_workflow tmpl ch req entropy) nid = alGet tmpl nid) ∧
    (∀ nid key, key ∉ image_injection_keys nid →
      getInput (build_image_workflow tmpl ch req entropy) nid key =
        getInput tmpl nid key) ∧
    (∀ nid, restMap (build_image_workflow tmpl ch req entropy) nid = restMap tmpl nid) ∧
    (∀ nid, alHas (build_image_workflow tmpl ch req entropy) nid = alHas tmpl nid) ∧
    (alHas tmpl "5" = false →
      alGet (build_image_workflow tmpl ch req entropy) "5" = none ∧
      (alHas tmpl "3" = true →
        getInput (build_image_workflow tmpl ch req entropy) "3" "seed" =
          some (.int (resolved_seed req.seed entropy)) ∧
        getInput (build_image_workflow tmpl ch req entropy) "3" "steps" =
          some (.int req.num_inference_steps) ∧
        getInput (build_image_workflow tmpl ch req entropy) "3" "cfg" =
          some (.rat req.guidance_scale)) ∧
      (alHas tmpl "6" = true →
        getInput (build_image_workflow tmpl ch req entropy) "6" "text" =
          some (.str (ch.trigger_word ++ ", " ++ req.prompt))) ∧
      (alHas tmpl "7" = true →
        getInput (build_image_workflow tmpl ch req entropy) "7" "text" =
          some (.str req.negative_prompt)) ∧
      (alHas tmpl "10" = true →
        getInput (build_image_workflow tmpl ch req entropy) "10" "lora_name" =
          some (.str (path_name ch.lora_path)) ∧
        getInput (build_image_workflow tmpl ch req entropy) "10" "strength_model" =
          some (.rat req.lora_strength) ∧
        getInput (build_image_workflow tmpl ch req entropy) "10" "strength_clip" =
          some (.rat req.lora_strength))) := by
  refine ⟨?_, ?_, ?_, ?_, ?_⟩
  · intro nid h
    simp only [List.mem_cons, List.mem_singleton, not_or] at h
    exact build_image_alGet_frame tmpl ch req entropy nid h.1 h.2.1 h.2.2.1
      h.2.2.2.1 h.2.2.2.2.1
  · intro nid key hkey
    exact build_image_getInput_frame tmpl ch req entropy nid key hkey
  · intro nid
    exact build_image_restMap_frame tmpl ch req entropy nid
  · intro nid
    exact build_image_alHas_frame tmpl ch req entropy nid
  · intro h5
    refine ⟨?_, ?_, ?_, ?_, ?_⟩
    · apply alGet_eq_none_of_alHas_false
      rw [build_image_alHas_frame]
      exact h5
    · exact (build_image_writes tmpl ch req entropy).1
    · exact (build_image_writes tmpl ch req entropy).2.2.1
    · exact (build_image_writes tmpl ch req entropy).2.2.2.1
    · exact (build_image_writes tmpl ch req entropy).2.2.2.2

/-- Witness for C6 on a concrete template lacking node `"5"`: the foreign
node `"9"` is untouched, node `"5"` stays absent, and the present injection
point `"3"` still receives its seed. -/
theorem build_image_workflow_frame_witness :
    alGet (build_image_workflow sample_image_tmpl cex_character cex_image_request 7) "9" =
      alGet sample_image_tmpl "9" ∧
    alGet (build_image_workflow sample_image_tmpl cex_character cex_image_request 7) "5" =
      none ∧
    getInput (build_image_workflow sample_image_tmpl cex_character cex_image_request 7)
        "3" "seed" =
      some (.int (resolved_seed cex_image_request.seed 7)) :=
  ⟨(build_image_workflow_frame sample_image_tmpl cex_character cex_image_request 7).1
      "9" (by decide),
   ((build_image_workflow_frame sample_image_tmpl cex_character cex_image_request 7).2.2.2.2
      (by decide)).1,
   (((build_image_workflow_frame sample_image_tmpl cex_character cex_image_request 7).2.2.2.2
      (by decide)).2.1 (by decide)).1⟩

/-- **C7** (confirmed): with node `"3"` present in the template, an explicit
request seed is written into the built workflow's sampler exactly; with no
seed supplied, the seed written lies in the inclusive range
`[0, 2^32 - 1]` whatever the entropy of the random draw — for both
`build_image_workflow` and `build_video_workflow`. -/
theorem workflow_seed_spec (tmplI tmplV : Workflow) (ch : Character)
    (reqI : ImageGenerationRequest) (reqV : VideoGenerationRequest)
    (src : Option String) (entropy : Nat)
    (h3I : alHas tmplI "3" = true) (h3V : alHas tmplV "3" = true) :
    (∀ s, reqI.seed = some s →
      getInput (build_image_workflow tmplI ch reqI entropy) "3" "seed" =
        some (.int s)) ∧
    (reqI.seed = none →
      ∃ n : Int, 0 ≤ n ∧ n ≤ 2 ^ 32 - 1 ∧
        getInput (build_image_workflow tmplI ch reqI entropy) "3" "seed" =
          some (.int n)) ∧
    (∀ s, reqV.seed = some s →
      getInput (build_video_workflow tmplV src reqV entropy) "3" "seed" =
        some (.int s)) ∧
    (reqV.seed = none →
      ∃ n : Int, 0 ≤ n ∧ n ≤ 2 ^ 32 - 1 ∧
        getInput (build_video_workflow tmplV src reqV entropy) "3" "seed" =
          some (.int n)) := by
  have hmod : (entropy % 2 ^ 32 : Nat) < 2 ^ 32 := Nat.mod_lt _ (by norm_num)
  refine ⟨?_, ?_, ?_, ?_⟩
  · intro s hs
    rw [build_image_seed_written tmplI ch reqI entropy h3I, hs]
    rfl
  · intro hs
    refine ⟨((entropy % 2 ^ 32 : Nat) : Int), by positivity, by omega, ?_⟩
    rw [build_image_seed_written tmplI ch reqI entropy h3I, hs]
    rfl
  · intro s hs
    rw [build_video_seed_written tmplV src reqV entropy h3V, hs]
    rfl
  · intro hs
    refine ⟨((entropy % 2 ^ 32 : Nat) : Int), by positivity, by omega, ?_⟩
    rw [build_video_seed_written tmplV src reqV entropy h3V, hs]
    rfl

/-- Witness for C7: explicit seeds 42 and 43 land verbatim in the sampler
node of the built image and video workflows. -/
theorem workflow_seed_spec_witness :
    getInput (build_image_workflow sample_image_tmpl cex_character seeded_image_request 7)
        "3" "seed" = some (JVal.int 42) ∧
    getInput (build_video_workflow sample_video_tmpl (some "src.png") seeded_video_request 7)
        "3" "seed" = some (JVal.int 43) :=
  ⟨(workflow_seed_spec sample_image_tmpl sample_video_tmpl cex_character
      seeded_image_request seeded_video_request (some "src.png") 7
      (by decide) (by decide)).1 42 rfl,
   (workflow_seed_spec sample_image_tmpl sample_video_tmpl cex_character
      seeded_image_request seeded_video_request (some "src.png") 7
      (by decide) (by decide)).2.2.1 43 rfl⟩

end CharGen
